import Mathlib

/-!
# Verification of the USD/GBP forecast dashboard's blending logic

Shallow embedding of `src/foreign_exchange_prediction.py`.

Modelling choices:
* Timestamps (`ds`) are integers (days on a linear calendar); the calendar's
  year function is an explicit parameter `yr : Int → Int` where year
  extraction (`.dt.year`) matters.
* Float values are rationals (`Rat`); pandas' `NaN` for a missing value is
  `Option.none`, and a pandas column mean (which skips `NaN` and yields `NaN`
  on an all-`NaN`/empty column) is `meanOpt` over the non-null values.
* A historical observation always carries a value (`Close` parses to a
  number), so `Obs.y : Rat`; forecast rows carry their fields directly.
* Streamlit's `number_input` with `min_value` rejects values below the
  minimum; this is the input-control validation gate (a `ValidationError`).
-/

namespace FX

/-- A historical observation: a row of the loaded dataframe after renaming,
with `ds` the parsed date and `y` the closing rate (line 13 of the source). -/
structure Obs where
  ds : Int
  y : Rat
deriving Repr, DecidableEq

/-- A raw prediction row produced by the forecasting engine: `yhat` is the
raw predicted value, `trend` the trend component, `yearly` the optional
yearly-seasonality component. -/
structure Pred where
  ds : Int
  yhat : Rat
  trend : Rat
  yearly : Option Rat
deriving Repr, DecidableEq

/-- A prediction row after line 54 has added the `yhat_adjusted` column;
all engine fields are kept alongside it. -/
structure PredAdj where
  ds : Int
  yhat : Rat
  trend : Rat
  yearly : Option Rat
  yhat_adjusted : Rat
deriving Repr, DecidableEq

/-- A row of `combined_df` (lines 57-59): `y` is null on rows coming from the
forecast, `yhat_adjusted` is null on rows coming from history, and
`y_combined` is `y` filled with `yhat_adjusted` where `y` is null. -/
structure Row where
  ds : Int
  y : Option Rat
  yhat_adjusted : Option Rat
  y_combined : Option Rat
deriving Repr, DecidableEq

/-- The error a `number_input` widget raises for a value below its
`min_value` (lines 36-37 use `min_value=0.1`). -/
inductive ValidationError where
  | belowMin (minValue value : Rat)
deriving Repr, DecidableEq

/-- `st.sidebar.number_input` with a `min_value`: a value below the minimum
never reaches the script; the widget rejects it. -/
def number_input (minValue value : Rat) : Except ValidationError Rat :=
  if value < minValue then .error (.belowMin minValue value) else .ok value

/-- Line 37: `current_gbp = st.sidebar.number_input(..., min_value=0.1, ...)`. -/
def current_gbp_input (v : Rat) : Except ValidationError Rat :=
  number_input (1/10) v

/-- Line 36: `current_usd = st.sidebar.number_input(..., min_value=0.1, ...)`. -/
def current_usd_input (v : Rat) : Except ValidationError Rat :=
  number_input (1/10) v

/-- Lines 44-45: build today's row from the user input and append it to the
historical dataframe (`pd.concat([df, today], ignore_index=True)`). -/
def df_updated (df : List Obs) (now : Int) (current_gbp : Rat) : List Obs :=
  df ++ [⟨now, current_gbp⟩]

/-- The Series Normalizer as a session step: validate the anchor input with
the widget's constraint, then merge (lines 37 and 44-45). -/
def normalize_session (df : List Obs) (now : Int) (gbpRaw : Rat) :
    Except ValidationError (List Obs) :=
  (current_gbp_input gbpRaw).map (fun g => df_updated df now g)

/-- `df['ds'].max()` on a dataframe column (used on the nonempty
`df_updated`); 0 is a dummy for the empty case pandas turns into `NaN`. -/
def maxDs : List Int → Int
  | [] => 0
  | d :: ds => ds.foldl max d

/-- Line 51: the day count passed to `generate_forecast` is `years * 365`. -/
def requested_days (years : Nat) : Nat := years * 365

/-- `model.make_future_dataframe(periods=days)` (line 24): the engine's
future dataframe holds the history dates followed by `periods` consecutive
next days after the last history date. -/
def make_future_dataframe (histDs : List Int) (periods : Nat) : List Int :=
  histDs ++ (List.range periods).map (fun i : Nat => maxDs histDs + 1 + (i : Int))

/-- Lines 23-26: `generate_forecast` asks the engine to predict every date of
the future dataframe; the engine's per-date output is the opaque `predict`. -/
def generate_forecast (predict : Int → Rat × Rat × Option Rat)
    (histDs : List Int) (days : Nat) : List Pred :=
  (make_future_dataframe histDs days).map (fun d =>
    ⟨d, (predict d).1, (predict d).2.1, (predict d).2.2⟩)

/-- Line 54: `forecast['yhat_adjusted'] = forecast['yhat'] * current_usd`;
every other column of the forecast is left as the engine produced it. -/
def adjust_forecast (fc : List Pred) (current_usd : Rat) : List PredAdj :=
  fc.map (fun p => ⟨p.ds, p.yhat, p.trend, p.yearly, p.yhat * current_usd⟩)

/-- Lines 57-59: concatenate `df_updated[['ds','y']]` with
`forecast[['ds','yhat_adjusted']]`, set `y_combined = y` and fill its nulls
with `yhat_adjusted`. -/
def combined_df (dfu : List Obs) (fc : List PredAdj) : List Row :=
  let base : List Row :=
    dfu.map (fun o => ⟨o.ds, some o.y, none, none⟩) ++
      fc.map (fun p => ⟨p.ds, none, some p.yhat_adjusted, none⟩)
  base.map (fun r => { r with y_combined := r.y.orElse (fun _ => r.yhat_adjusted) })

/-- Lines 98-99: the chart's forecast trace keeps only forecast rows whose
date is strictly after `df_updated['ds'].max()`. -/
def forecast_trace (fc : List PredAdj) (dfu : List Obs) : List PredAdj :=
  fc.filter (fun p => maxDs (dfu.map Obs.ds) < p.ds)

/-- Line 67: the blended rows whose year equals the selected year. -/
def selected_year_data (yr : Int → Int) (rows : List Row) (selectedYear : Int) :
    List Row :=
  rows.filter (fun r => yr r.ds == selectedYear)

/-- The non-null `y` entries of a set of rows (what `['y'].mean()` averages). -/
def observedValues (rows : List Row) : List Rat :=
  rows.filterMap Row.y

/-- The non-null `yhat_adjusted` entries of a set of rows. -/
def adjustedValues (rows : List Row) : List Rat :=
  rows.filterMap Row.yhat_adjusted

/-- A pandas column mean: the mean of the non-null entries, `NaN` (here
`none`) when there are none. -/
def meanOpt (l : List Rat) : Option Rat :=
  if l.isEmpty then none else some (l.sum / l.length)

/-- What the summary block (lines 69-83) writes for the selected year. -/
inductive YearSummary where
  | historical (actual : Option Rat) (adjusted : Option Rat)
  | forecasted (rate : Option Rat)
  | noData
deriving Repr, DecidableEq

/-- Lines 69-83: if rows match the selected year, report the historical
branch (mean of `y`, and that mean times `current_usd`) when the year is at
most the current year, else the forecast branch (mean of `yhat_adjusted`);
with no matching rows, report the no-data message. -/
def year_summary (yr : Int → Int) (rows : List Row)
    (selectedYear nowYear : Int) (current_usd : Rat) : YearSummary :=
  let syd := selected_year_data yr rows selectedYear
  if ¬ syd.isEmpty then
    if selectedYear ≤ nowYear then
      let actual := meanOpt (observedValues syd)
      .historical actual (actual.map (· * current_usd))
    else
      .forecasted (meanOpt (adjustedValues syd))
  else
    .noData

example :
    combined_df [⟨0, 1⟩] [⟨1, 2, 0, none, 4⟩] =
      [⟨0, some 1, none, some 1⟩, ⟨1, none, some 4, some 4⟩] := by decide

/-! ## Helper lemmas -/

lemma le_foldl_max (ds : List Int) (a : Int) : a ≤ ds.foldl max a := by
  induction ds generalizing a with
  | nil => exact le_refl a
  | cons x xs ih => exact le_trans (le_max_left a x) (ih (max a x))

lemma mem_le_foldl_max (ds : List Int) (a d : Int) (hd : d ∈ ds) :
    d ≤ ds.foldl max a := by
  induction ds generalizing a with
  | nil => cases hd
  | cons x xs ih =>
    rcases List.mem_cons.mp hd with rfl | h
    · exact le_trans (le_max_right a d) (le_foldl_max xs (max a d))
    · exact ih (max a x) h

lemma le_maxDs (l : List Int) (d : Int) (hd : d ∈ l) : d ≤ maxDs l := by
  cases l with
  | nil => cases hd
  | cons x xs =>
    rcases List.mem_cons.mp hd with rfl | h
    · exact le_foldl_max xs d
    · exact mem_le_foldl_max xs x d h

lemma year_summary_eq_historical (yr : Int → Int) (rows : List Row)
    (selectedYear nowYear : Int) (s : Rat)
    (hne : selected_year_data yr rows selectedYear ≠ [])
    (hle : selectedYear ≤ nowYear) :
    year_summary yr rows selectedYear nowYear s =
      YearSummary.historical
        (meanOpt (observedValues (selected_year_data yr rows selectedYear)))
        ((meanOpt (observedValues (selected_year_data yr rows selectedYear))).map
          (· * s)) := by
  have hne' : (selected_year_data yr rows selectedYear).isEmpty = false := by
    simpa [List.isEmpty_iff] using hne
  simp [year_summary, hne', hle]

lemma year_summary_eq_forecasted (yr : Int → Int) (rows : List Row)
    (selectedYear nowYear : Int) (s : Rat)
    (hne : selected_year_data yr rows selectedYear ≠ [])
    (hlt : nowYear < selectedYear) :
    year_summary yr rows selectedYear nowYear s =
      YearSummary.forecasted
        (meanOpt (adjustedValues (selected_year_data yr rows selectedYear))) := by
  have hne' : (selected_year_data yr rows selectedYear).isEmpty = false := by
    simpa [List.isEmpty_iff] using hne
  simp [year_summary, hne', not_le.mpr hlt]

/-! ## Claim theorems -/

/-- C5: for every non-empty historical sequence and positive anchor value,
the merged training sequence has length historical + 1, keeps the historical
rows first in their original order (it is not re-sorted), and its last row
is the anchor, whose value is the anchor value. -/
theorem series_normalizer_merge (df : List Obs) (now : Int) (v : Rat)
    (hdf : df ≠ []) (hv : 0 < v) :
    (df_updated df now v).length = df.length + 1 ∧
    (df_updated df now v).take df.length = df ∧
    (df_updated df now v).getLast? = some ⟨now, v⟩ ∧
    ((df_updated df now v).getLast?).map Obs.y = some v := by
  refine ⟨?_, ?_, ?_, ?_⟩ <;>
    simp [df_updated, List.take_left, List.getLast?_concat]

/-- Witness for C5 at Scenario A's shape: history of two rows and anchor
value 7/5 give a merged sequence of length 3 ending in the anchor value. -/
theorem series_normalizer_merge_witness :
    (df_updated [⟨0, 13/10⟩, ⟨1, 27/20⟩] 2 (7/5)).length = 3 ∧
    ((df_updated [⟨0, 13/10⟩, ⟨1, 27/20⟩] 2 (7/5)).getLast?).map Obs.y =
      some (7/5) := by
  have h := series_normalizer_merge [⟨0, 13/10⟩, ⟨1, 27/20⟩] 2 (7/5)
    (by simp) (by norm_num)
  exact ⟨h.1, h.2.2.2⟩

/-- C6: every raw prediction value is turned into its adjusted value by one
multiplication with the scale factor, position by position. -/
theorem forecast_scaling (fc : List Pred) (s : Rat) (hs : 0 < s) (i : Nat) :
    ((adjust_forecast fc s)[i]?).map PredAdj.yhat_adjusted =
      (fc[i]?).map (fun p => p.yhat * s) := by
  cases h : fc[i]? with
  | none => simp [adjust_forecast, List.getElem?_map, h]
  | some p => simp [adjust_forecast, List.getElem?_map, h]

/-- Witness for C6 at Scenario B: raw values 1, 2, 3 and scale 3/2 give
adjusted values 3/2, 3, 9/2. -/
theorem forecast_scaling_witness :
    (0:Rat) < 3/2 ∧
    (adjust_forecast [⟨1, 1, 0, none⟩, ⟨2, 2, 0, none⟩, ⟨3, 3, 0, none⟩]
        (3/2)).map PredAdj.yhat_adjusted = [3/2, 3, 9/2] ∧
    ((adjust_forecast [⟨1, 1, 0, none⟩, ⟨2, 2, 0, none⟩, ⟨3, 3, 0, none⟩]
        (3/2))[0]?).map PredAdj.yhat_adjusted =
      (([⟨1, 1, 0, none⟩, ⟨2, 2, 0, none⟩, ⟨3, 3, 0, none⟩] :
        List Pred)[0]?).map (fun p => p.yhat * (3/2)) :=
  ⟨by norm_num, by norm_num [adjust_forecast],
    forecast_scaling [⟨1, 1, 0, none⟩, ⟨2, 2, 0, none⟩, ⟨3, 3, 0, none⟩]
      (3/2) (by norm_num) 0⟩

/-- C9: adding the adjusted column changes no other field of the engine's
output: date, trend and yearly seasonality pass through unchanged, and the
raw predicted value itself is kept. -/
theorem trend_seasonality_passthrough (fc : List Pred) (s : Rat) (i : Nat) :
    ((adjust_forecast fc s)[i]?).map PredAdj.trend = (fc[i]?).map Pred.trend ∧
    ((adjust_forecast fc s)[i]?).map PredAdj.yearly = (fc[i]?).map Pred.yearly ∧
    ((adjust_forecast fc s)[i]?).map PredAdj.ds = (fc[i]?).map Pred.ds ∧
    ((adjust_forecast fc s)[i]?).map PredAdj.yhat = (fc[i]?).map Pred.yhat := by
  cases h : fc[i]? with
  | none => refine ⟨?_, ?_, ?_, ?_⟩ <;> simp [adjust_forecast, List.getElem?_map, h]
  | some p => refine ⟨?_, ?_, ?_, ?_⟩ <;> simp [adjust_forecast, List.getElem?_map, h]

/-- C7: a non-positive anchor value is rejected by the input control's
minimum (0.1), so the Series Normalizer fails with a validation error and no
merged sequence is produced. -/
theorem anchor_validation (df : List Obs) (now : Int) (v : Rat) (hv : v ≤ 0) :
    normalize_session df now v =
      Except.error (ValidationError.belowMin (1/10) v) := by
  have hlt : v < 1/10 := lt_of_le_of_lt hv (by norm_num)
  unfold normalize_session current_gbp_input number_input
  rw [if_pos hlt]
  rfl

/-- Witness for C7: anchor value 0 is rejected. -/
theorem anchor_validation_witness :
    normalize_session [⟨0, 1⟩] 1 0 =
      Except.error (ValidationError.belowMin (1/10) 0) :=
  anchor_validation [⟨0, 1⟩] 1 0 (le_refl 0)

/-- C2: every row of the blended series has exactly one of observed value
and adjusted prediction non-null, and its combined value is the observed
value when present, else the adjusted prediction. -/
theorem blended_row_invariant (dfu : List Obs) (fc : List PredAdj) (r : Row)
    (hr : r ∈ combined_df dfu fc) :
    ((r.y.isSome ∧ r.yhat_adjusted = none) ∨
      (r.y = none ∧ r.yhat_adjusted.isSome)) ∧
    r.y_combined = (if r.y.isSome then r.y else r.yhat_adjusted) := by
  obtain ⟨r0, hr0, rfl⟩ := List.mem_map.mp hr
  rcases List.mem_append.mp hr0 with h | h <;>
    obtain ⟨x, hx, rfl⟩ := List.mem_map.mp h <;>
    simp [Option.orElse]

/-- Witness for C2: a concrete blended row of a one-observation,
one-prediction series satisfies the invariant. -/
theorem blended_row_invariant_witness :
    (Row.mk 0 (some 1) none (some 1)) ∈
      combined_df [⟨0, 1⟩] [⟨1, 2, 0, none, 4⟩] ∧
    (((Row.mk 0 (some 1) none (some 1)).y.isSome ∧
        (Row.mk 0 (some 1) none (some 1)).yhat_adjusted = none) ∨
      ((Row.mk 0 (some 1) none (some 1)).y = none ∧
        (Row.mk 0 (some 1) none (some 1)).yhat_adjusted.isSome)) ∧
    (Row.mk 0 (some 1) none (some 1)).y_combined =
      (if (Row.mk 0 (some 1) none (some 1)).y.isSome then
        (Row.mk 0 (some 1) none (some 1)).y
      else (Row.mk 0 (some 1) none (some 1)).yhat_adjusted) :=
  ⟨by decide,
    blended_row_invariant [⟨0, 1⟩] [⟨1, 2, 0, none, 4⟩] _ (by decide)⟩

/-- C4: a selected year with no matching blended rows yields the literal
no-data summary, not a numeric result. -/
theorem empty_year_no_data (yr : Int → Int) (rows : List Row)
    (selectedYear nowYear : Int) (s : Rat)
    (h : selected_year_data yr rows selectedYear = []) :
    year_summary yr rows selectedYear nowYear s = YearSummary.noData := by
  have h' : (selected_year_data yr rows selectedYear).isEmpty = true := by
    simp [h]
  simp [year_summary, h']

/-- Witness for C4: a year matching no row reports no data. -/
theorem empty_year_no_data_witness :
    selected_year_data (fun d => d) [⟨5, some 1, none, some 1⟩] 1 = [] ∧
    year_summary (fun d => d) [⟨5, some 1, none, some 1⟩] 1 5 2 =
      YearSummary.noData :=
  ⟨by decide,
    empty_year_no_data (fun d => d) [⟨5, some 1, none, some 1⟩] 1 5 2
      (by decide)⟩

/-- C3: with at least one matching row, a year at most the current year is
reported as the mean of the non-null observed values together with that mean
times the scale factor, and a later year as the mean of the non-null
adjusted predictions. -/
theorem year_summary_branches (yr : Int → Int) (rows : List Row)
    (selectedYear nowYear : Int) (s : Rat)
    (hne : selected_year_data yr rows selectedYear ≠ []) :
    (selectedYear ≤ nowYear →
      year_summary yr rows selectedYear nowYear s =
        YearSummary.historical
          (meanOpt (observedValues (selected_year_data yr rows selectedYear)))
          ((meanOpt
            (observedValues (selected_year_data yr rows selectedYear))).map
            (· * s))) ∧
    (nowYear < selectedYear →
      year_summary yr rows selectedYear nowYear s =
        YearSummary.forecasted
          (meanOpt
            (adjustedValues (selected_year_data yr rows selectedYear)))) :=
  ⟨year_summary_eq_historical yr rows selectedYear nowYear s hne,
    year_summary_eq_forecasted yr rows selectedYear nowYear s hne⟩

/-- Witness for C3 at Scenario D: two historical rows 13/10 and 7/5 in the
current year average to 27/20, and scale 2 gives adjusted average 27/10. -/
theorem year_summary_branches_witness :
    year_summary (fun _ => 2024)
      [⟨0, some (13/10), none, some (13/10)⟩, ⟨1, some (7/5), none, some (7/5)⟩]
      2024 2024 2 =
      YearSummary.historical (some (27/20)) (some (27/10)) := by
  have h := (year_summary_branches (fun _ => 2024)
    [⟨0, some (13/10), none, some (13/10)⟩, ⟨1, some (7/5), none, some (7/5)⟩]
    2024 2024 2 (by simp [selected_year_data])).1 (le_refl 2024)
  rw [h]
  norm_num [selected_year_data, observedValues, meanOpt, List.filter,
    List.filterMap]

/-- C1 counterexample: with history at days 0 and 2 and a one-day horizon,
the engine's in-sample prediction for day 0 (whose timestamp is at most the
maximum historical timestamp, 2) is kept in the blended series with a
non-null adjusted prediction, so it is not discarded. -/
theorem insample_prediction_kept :
    (Row.mk 0 none (some 2) (some 2)) ∈
      combined_df [⟨0, 1⟩, ⟨2, 2⟩]
        (adjust_forecast
          (generate_forecast (fun _ => (1, 1, none)) [0, 2] 1) 2) ∧
    (0:Int) ≤ maxDs [0, 2] := by
  constructor
  · norm_num [combined_df, adjust_forecast, generate_forecast,
      make_future_dataframe, maxDs, Option.orElse]
  · decide

/-- C1 (amended): only the chart's forecast trace is restricted to
predictions strictly after the maximum timestamp of the merged historical
sequence (it holds exactly the forecast rows with such timestamps); the
blended series itself retains every prediction row, including those at or
before that maximum, with its adjusted prediction as the combined value. -/
theorem trace_strictly_future_blend_retains_all (dfu : List Obs)
    (fc : List PredAdj) (p : PredAdj) :
    (p ∈ forecast_trace fc dfu ↔ p ∈ fc ∧ maxDs (dfu.map Obs.ds) < p.ds) ∧
    (p ∈ fc →
      Row.mk p.ds none (some p.yhat_adjusted) (some p.yhat_adjusted) ∈
        combined_df dfu fc) := by
  constructor
  · simp [forecast_trace, List.mem_filter]
  · intro hp
    refine List.mem_map.mpr ⟨⟨p.ds, none, some p.yhat_adjusted, none⟩, ?_, rfl⟩
    exact List.mem_append.mpr (Or.inr (List.mem_map.mpr ⟨p, hp, rfl⟩))

/-- C8: for a horizon of h years in 1..10, the day count passed to the
forecasting engine is h * 365, and exactly h * 365 of the engine's future
dates lie strictly after the last historical date. -/
theorem horizon_days (h : Nat) (histDs : List Int) (h1 : 1 ≤ h)
    (h10 : h ≤ 10) (hne : histDs ≠ []) :
    requested_days h = h * 365 ∧
    ((make_future_dataframe histDs (requested_days h)).filter
      (fun d => maxDs histDs < d)).length = h * 365 := by
  refine ⟨rfl, ?_⟩
  unfold make_future_dataframe
  rw [List.filter_append]
  have hpast : histDs.filter (fun d => decide (maxDs histDs < d)) = [] := by
    apply List.filter_eq_nil_iff.mpr
    intro a ha
    simpa using not_lt.mpr (le_maxDs histDs a ha)
  have hfut : ((List.range (requested_days h)).map
      (fun i : Nat => maxDs histDs + 1 + (i : Int))).filter
        (fun d => decide (maxDs histDs < d)) =
      (List.range (requested_days h)).map
        (fun i : Nat => maxDs histDs + 1 + (i : Int)) := by
    apply List.filter_eq_self.mpr
    intro a ha
    obtain ⟨i, hi, rfl⟩ := List.mem_map.mp ha
    simp
    omega
  rw [hpast, hfut]
  simp [requested_days]

/-- Witness for C8: one year of horizon over a one-day history requests 365
days and yields 365 strictly-future dates. -/
theorem horizon_days_witness :
    requested_days 1 = 1 * 365 ∧
    ((make_future_dataframe [0] (requested_days 1)).filter
      (fun d => maxDs [0] < d)).length = 1 * 365 :=
  horizon_days 1 [0] (le_refl 1) (by norm_num) (by simp)

/-- C10: when the selected year is the current calendar year, the anchor
observation built from the user-entered rate is among the matching observed
values, and the reported summary is the historical branch computed from that
list of observed values. -/
theorem current_year_anchor_contributes (yr : Int → Int) (df : List Obs)
    (now : Int) (gbp usd : Rat) (fc : List PredAdj) (nowYear : Int)
    (hyr : yr now = nowYear) :
    gbp ∈ observedValues (selected_year_data yr
      (combined_df (df_updated df now gbp) fc) nowYear) ∧
    year_summary yr (combined_df (df_updated df now gbp) fc) nowYear nowYear
        usd =
      YearSummary.historical
        (meanOpt (observedValues (selected_year_data yr
          (combined_df (df_updated df now gbp) fc) nowYear)))
        ((meanOpt (observedValues (selected_year_data yr
          (combined_df (df_updated df now gbp) fc) nowYear))).map
          (· * usd)) := by
  have hrow : (Row.mk now (some gbp) none (some gbp)) ∈
      combined_df (df_updated df now gbp) fc := by
    refine List.mem_map.mpr ⟨⟨now, some gbp, none, none⟩, ?_, rfl⟩
    refine List.mem_append.mpr (Or.inl (List.mem_map.mpr
      ⟨⟨now, gbp⟩, ?_, rfl⟩))
    exact List.mem_append.mpr (Or.inr (List.mem_singleton.mpr rfl))
  have hsel : (Row.mk now (some gbp) none (some gbp)) ∈
      selected_year_data yr (combined_df (df_updated df now gbp) fc)
        nowYear := by
    refine List.mem_filter.mpr ⟨hrow, ?_⟩
    simp [hyr]
  have hmem : gbp ∈ observedValues (selected_year_data yr
      (combined_df (df_updated df now gbp) fc) nowYear) :=
    List.mem_filterMap.mpr ⟨_, hsel, rfl⟩
  exact ⟨hmem, year_summary_eq_historical yr _ nowYear nowYear usd
    (List.ne_nil_of_mem hsel) (le_refl nowYear)⟩

/-- Witness for C10: with the current year selected, the user-entered rate
7/5 is among the observed values the current-year average is taken over. -/
theorem current_year_anchor_contributes_witness :
    (7/5 : Rat) ∈ observedValues (selected_year_data (fun _ => 2025)
      (combined_df (df_updated [⟨0, 1⟩] 100 (7/5)) []) 2025) :=
  (current_year_anchor_contributes (fun _ => 2025) [⟨0, 1⟩] 100 (7/5) 2 []
    2025 rfl).1

end FX
